import Mathlib

/-!
Shallow embedding of the moltworker-self proxy/relay layer
(src/src/gateway/selfhosted.ts, src/unnamed/part_001,
src/selfhosted/routes/public.selfhosted.ts).

Network calls (`fetch`) are modelled as explicit oracle parameters; JS
exceptions are modelled with `Except`; JS `Headers` (case-insensitive
multimaps with `set` replacing) are modelled as association lists whose
operations normalise names to lower case; WHATWG `URL` is modelled by
`UrlParts` with a parser for well-formed absolute http(s) URLs.
-/

namespace Moltworker

/-- ASCII lower-casing, as JS `toLowerCase` behaves on header names and
the `Upgrade` token (structural recursion over the character list, so that
concrete instances evaluate). -/
def lowerStr (s : String) : String :=
  ⟨s.data.map Char.toLower⟩

/-- `a.startsWith b` over character lists. -/
def strStartsWith (s start : String) : Bool :=
  start.data.isPrefixOf s.data

/-- `a.endsWith b` over character lists. -/
def strEndsWith (s suf : String) : Bool :=
  suf.data.isSuffixOf s.data

/-- Whether `sub` occurs contiguously in `l` (JS `String.includes`). -/
def containsSub (sub : List Char) : List Char → Bool
  | [] => sub.isEmpty
  | c :: rest => sub.isPrefixOf (c :: rest) || containsSub sub rest

/-- JS `a.includes(b)`. -/
def strIncludes (s sub : String) : Bool :=
  containsSub sub.data s.data

/-- JS truthiness of an optional string environment value:
`undefined` and the empty string are falsy. -/
def truthy : Option String → Bool
  | none => false
  | some s => !(s == "")

/-- `s.replace(/\/$/, '')`: removes at most one trailing slash. -/
def stripTrailingSlash (s : String) : String :=
  if strEndsWith s "/" then s.dropRight 1 else s

/-- A parsed absolute URL, mirroring the WHATWG `URL` fields the code uses.
`protocol` includes the trailing colon (e.g. "https:"); `host` includes the
port when present; `pathname` starts with "/"; `search` is "" or starts
with "?". -/
structure UrlParts where
  protocol : String
  host : String
  pathname : String
  search : String
  deriving DecidableEq, Repr

/-- WHATWG URL serialisation for the fields we model. -/
def UrlParts.toStr (u : UrlParts) : String :=
  u.protocol ++ "//" ++ u.host ++ u.pathname ++ u.search

/-- Parse an already-normalised absolute URL `scheme://host[/path][?query]`.
Returns `none` when the "://" separator is missing (the `new URL`
constructor would throw). An absent path serialises to "/" as WHATWG does. -/
def parseURL (s : String) : Option UrlParts :=
  let scheme := s.data.takeWhile (fun c => c ≠ ':')
  match s.data.dropWhile (fun c => c ≠ ':') with
  | ':' :: '/' :: '/' :: tail =>
    let hostPath := tail.takeWhile (fun c => c ≠ '?')
    let search := tail.dropWhile (fun c => c ≠ '?')
    let host := hostPath.takeWhile (fun c => c ≠ '/')
    let path := hostPath.dropWhile (fun c => c ≠ '/')
    let pathname := if path.isEmpty then "/".data else path
    some { protocol := ⟨scheme ++ [':']⟩, host := ⟨host⟩,
           pathname := ⟨pathname⟩, search := ⟨search⟩ }
  | _ => none

/-! ### JS `Headers` model: association lists with case-insensitive names -/

/-- `headers.get(k)`: first value whose name matches case-insensitively. -/
def hGet (hs : List (String × String)) (k : String) : Option String :=
  (hs.find? (fun p => lowerStr p.1 == lowerStr k)).map (·.2)

/-- `headers.set(k, v)`: drop all entries named `k` (case-insensitively)
and append `(k, v)`. JS `Headers` stores names lower-cased; since every
lookup here is case-insensitive, keeping the original case is
observationally equivalent. -/
def hSet (hs : List (String × String)) (k v : String) : List (String × String) :=
  hs.filter (fun p => lowerStr p.1 != lowerStr k) ++ [(k, v)]

/-- `headers.delete(k)`. -/
def hDelete (hs : List (String × String)) (k : String) : List (String × String) :=
  hs.filter (fun p => lowerStr p.1 != lowerStr k)

/-! ### Environment and configuration (src/src/gateway/selfhosted.ts 10-42,
src/src/types.ts) -/

/-- The environment bindings consumed by the self-hosted worker
(subset of `MoltbotEnv` in src/src/types.ts used by the embedded code). -/
structure MoltbotEnv where
  DEPLOYMENT_MODE : Option String
  SELFHOSTED_URL : Option String
  SELFHOSTED_WS_URL : Option String
  SELFHOSTED_AUTH_TOKEN : Option String
  MOLTBOT_GATEWAY_TOKEN : Option String
  CF_ACCESS_TEAM_DOMAIN : Option String
  CF_ACCESS_AUD : Option String
  DEV_MODE : Option String
  deriving DecidableEq, Repr

/-- `SelfHostedConfig` (src/src/gateway/selfhosted.ts 10-17). -/
structure SelfHostedConfig where
  baseUrl : String
  wsUrl : String
  authToken : Option String
  deriving DecidableEq, Repr

/-- WebSocket URL derivation inside `buildSelfHostedConfig`
(lines 31-35): parse the base URL, swap the scheme to its WebSocket
equivalent, serialise, strip the trailing slash. `.error` models the
`new URL` constructor throwing on a malformed base URL. -/
def deriveWsUrl (baseUrl : String) : Except String String :=
  match parseURL baseUrl with
  | none => .error "Invalid URL"
  | some u =>
    let proto := if u.protocol == "https:" then "wss:" else "ws:"
    .ok (stripTrailingSlash (UrlParts.toStr { u with protocol := proto }))

/-- `buildSelfHostedConfig` (src/src/gateway/selfhosted.ts 22-42).
`.ok none` is the JS `null` return; `.error` models a thrown exception. -/
def buildSelfHostedConfig (env : MoltbotEnv) : Except String (Option SelfHostedConfig) :=
  if env.DEPLOYMENT_MODE ≠ some "selfhosted" ∨ truthy env.SELFHOSTED_URL = false then
    .ok none
  else
    let baseUrl := stripTrailingSlash (env.SELFHOSTED_URL.getD "")
    if truthy env.SELFHOSTED_WS_URL then
      .ok (some { baseUrl := baseUrl, wsUrl := env.SELFHOSTED_WS_URL.getD "",
                  authToken := env.SELFHOSTED_AUTH_TOKEN })
    else
      match deriveWsUrl baseUrl with
      | .error e => .error e
      | .ok ws =>
        .ok (some { baseUrl := baseUrl, wsUrl := ws,
                    authToken := env.SELFHOSTED_AUTH_TOKEN })

/-! ### Health prober (src/src/gateway/selfhosted.ts 47-59) -/

/-- Behaviour of the backend health endpoint as seen by one probe:
it answers with a status after some delay, never answers, or the
connection fails. -/
inductive HealthBehavior where
  | respondsAfter (ms : Nat) (status : Nat)
  | neverResponds
  | networkError
  deriving DecidableEq, Repr

/-- JS `Response.ok`: status in the 2xx range. -/
def responseOk (status : Nat) : Bool :=
  200 ≤ status && status < 300

/-- `fetch` with `AbortSignal.timeout(deadlineMs)`: `some status` when the
backend answers within the deadline, `none` when the fetch rejects
(abort on timeout, or network error). -/
def fetchWithDeadline (deadlineMs : Nat) (b : HealthBehavior) : Option Nat :=
  match b with
  | .respondsAfter ms status => if ms ≤ deadlineMs then some status else none
  | .neverResponds => none
  | .networkError => none

/-- `checkSelfHostedHealth` (lines 47-59): GET `{baseUrl}/health` with a
5000 ms abort signal; `response.ok` on an answer, `false` when the fetch
rejects (the `catch` swallows the error). `net` maps the probed URL to the
backend's behaviour. The return type `Bool` reflects that the function
never raises to its caller. -/
def checkSelfHostedHealth (config : SelfHostedConfig) (net : String → HealthBehavior) : Bool :=
  match fetchWithDeadline 5000 (net (config.baseUrl ++ "/health")) with
  | some status => responseOk status
  | none => false

/-- `buildAuthHeaders` (lines 64-70): empty headers, plus
`X-Internal-Auth` when a token is configured. -/
def buildAuthHeaders (config : SelfHostedConfig) : List (String × String) :=
  match config.authToken with
  | some t => hSet [] "X-Internal-Auth" t
  | none => []

/-! ### Environment validation and routes (src/unnamed/part_001,
src/selfhosted/routes/public.selfhosted.ts) -/

/-- `validateRequiredEnv` (src/unnamed/part_001 lines 61-81): the names of
the required settings that are absent (or empty), in source order. -/
def validateRequiredEnv (env : MoltbotEnv) : List String :=
  (if truthy env.SELFHOSTED_URL then [] else ["SELFHOSTED_URL"]) ++
  (if truthy env.MOLTBOT_GATEWAY_TOKEN then [] else ["MOLTBOT_GATEWAY_TOKEN"]) ++
  (if truthy env.CF_ACCESS_TEAM_DOMAIN then [] else ["CF_ACCESS_TEAM_DOMAIN"]) ++
  (if truthy env.CF_ACCESS_AUD then [] else ["CF_ACCESS_AUD"])

/-- Outcome of the env-validation middleware. `html503` carries the text
substituted for `{{MISSING_VARS}}` in the config-error page; `json503`
carries the JSON body's `missing` list. -/
inductive MiddlewareResult where
  | proceed
  | html503 (missingVarsText : String)
  | json503 (missing : List String)
  deriving DecidableEq, Repr

/-- The env-validation middleware (src/unnamed/part_001 lines 112-140):
skipped for `/debug` paths and in DEV_MODE; otherwise, when any required
setting is missing, responds 503 — config-error HTML for HTML callers,
`{error, missing}` JSON otherwise. -/
def validateEnvMiddleware (env : MoltbotEnv) (pathname : String) (acceptsHtml : Bool) :
    MiddlewareResult :=
  if strStartsWith pathname "/debug" then .proceed
  else if env.DEV_MODE == some "true" then .proceed
  else
    let missingVars := validateRequiredEnv env
    if missingVars.length > 0 then
      if acceptsHtml then .html503 (String.intercalate ", " missingVars)
      else .json503 missingVars
    else .proceed

/-- Body shapes returned by GET `/api/status`
(src/selfhosted/routes/public.selfhosted.ts 48-80). -/
inductive StatusBody where
  | notConfigured
  | running (url : String)
  | notResponding (url : String)
  deriving DecidableEq, Repr

/-- An HTTP response of the status route: status code and body shape. -/
structure RouteResponse where
  status : Nat
  body : StatusBody
  deriving DecidableEq, Repr

/-- GET `/api/status` (src/selfhosted/routes/public.selfhosted.ts 48-80):
`{ok:false, status:'not_configured'}` via `c.json` (default status 200)
when the resolver returns null; otherwise reflects the probe outcome, also
at status 200. `.error` propagates a resolver exception. -/
def apiStatus (env : MoltbotEnv) (net : String → HealthBehavior) :
    Except String RouteResponse :=
  match buildSelfHostedConfig env with
  | .error e => .error e
  | .ok none => .ok { status := 200, body := .notConfigured }
  | .ok (some config) =>
    if checkSelfHostedHealth config net then
      .ok { status := 200, body := .running config.baseUrl }
    else
      .ok { status := 200, body := .notResponding config.baseUrl }

/-- `request.headers.get('Accept')?.includes('text/html')` truthiness. -/
def acceptsHtmlOf (hs : List (String × String)) : Bool :=
  match hGet hs "Accept" with
  | some a => strIncludes a "text/html"
  | none => false

/-- `request.headers.get('Upgrade')?.toLowerCase() === 'websocket'`. -/
def isWebSocketRequestOf (hs : List (String × String)) : Bool :=
  match hGet hs "Upgrade" with
  | some u => lowerStr u == "websocket"
  | none => false

/-- Outcome of the catch-all handler (src/unnamed/part_001 167-210). -/
inductive CatchAllOutcome where
  | configMissing503
  | loadingHtml
  | unhealthy503
  | wsRelay (config : SelfHostedConfig)
  | httpRelay (config : SelfHostedConfig)
  deriving DecidableEq, Repr

/-- `app.all('*')` (src/unnamed/part_001 167-210): 503 `{error, hint}` when
the resolver returns null; with a config, probe the backend; when not
ready, the loading page for non-WebSocket HTML callers and 503
`{error, hint}` otherwise; when ready, relay by upgrade header. -/
def catchAll (env : MoltbotEnv) (reqHeaders : List (String × String))
    (net : String → HealthBehavior) : Except String CatchAllOutcome :=
  match buildSelfHostedConfig env with
  | .error e => .error e
  | .ok none => .ok .configMissing503
  | .ok (some config) =>
    let isGatewayReady := checkSelfHostedHealth config net
    let isWebSocketRequest := isWebSocketRequestOf reqHeaders
    let acceptsHtml := acceptsHtmlOf reqHeaders
    if !isGatewayReady && !isWebSocketRequest && acceptsHtml then .ok .loadingHtml
    else if !isGatewayReady then .ok .unhealthy503
    else if isWebSocketRequest then .ok (.wsRelay config)
    else .ok (.httpRelay config)

/-! ### HTTP relay (src/src/gateway/selfhosted.ts 75-128) -/

/-- An inbound request as the relay sees it. -/
structure RequestModel where
  url : UrlParts
  method : String
  headers : List (String × String)
  body : Option String
  deriving DecidableEq, Repr

/-- The upstream `fetch` call the relay issues: target URL, method,
headers, body, and the redirect mode. -/
structure UpstreamRequest where
  url : String
  method : String
  headers : List (String × String)
  body : Option String
  redirect : String
  deriving DecidableEq, Repr

/-- The upstream response. -/
structure UpstreamResponse where
  status : Nat
  statusText : String
  headers : List (String × String)
  body : Option String
  deriving DecidableEq, Repr

/-- Request-building phase of `proxySelfHostedRequest` (lines 79-104):
target URL resolved from the inbound path+query against `config.baseUrl`;
inbound headers copied; `X-Internal-Auth` injected only when a token is
configured; `host` removed; `Cookie` re-set to its inbound value;
`redirect: 'manual'`. `none` models the `new URL` constructor throwing on
a malformed base URL. -/
def buildProxyRequest (config : SelfHostedConfig) (request : RequestModel) :
    Option UpstreamRequest :=
  (parseURL config.baseUrl).map fun base =>
    let targetUrl : UrlParts :=
      { base with pathname := request.url.pathname, search := request.url.search }
    let headers := request.headers
    let headers :=
      match config.authToken with
      | some t => hSet headers "X-Internal-Auth" t
      | none => headers
    let headers := hDelete headers "host"
    let headers :=
      match hGet request.headers "Cookie" with
      | some cookies => hSet headers "Cookie" cookies
      | none => headers
    { url := UrlParts.toStr targetUrl, method := request.method,
      headers := headers, body := request.body, redirect := "manual" }

/-- Response-building phase of `proxySelfHostedRequest` (lines 108-117):
the upstream body, status and status text pass through unchanged; two
debug headers are added. -/
def proxyClientResponse (inboundPathname : String) (resp : UpstreamResponse) :
    UpstreamResponse :=
  { status := resp.status, statusText := resp.statusText,
    headers := hSet (hSet resp.headers "X-Worker-Debug" "proxy-to-selfhosted")
      "X-Debug-Path" inboundPathname,
    body := resp.body }

/-! ### WebSocket relay (src/src/gateway/selfhosted.ts 136-242) -/

/-- Upgrade headers for the backend connection (lines 152-155): a copy of
the inbound headers, plus `X-Internal-Auth` only when a token is
configured. -/
def wsUpgradeHeaders (config : SelfHostedConfig) (reqHeaders : List (String × String)) :
    List (String × String) :=
  match config.authToken with
  | some t => hSet reqHeaders "X-Internal-Auth" t
  | none => reqHeaders

/-- Result of the upgrade phase: the HTTP status returned to the caller
and whether the relay handlers were installed on the socket pair. -/
structure WsProxyOutcome where
  responseStatus : Nat
  handlersInstalled : Bool
  deriving DecidableEq, Repr

/-- Upgrade checks of `proxySelfHostedWebSocket` (lines 158-231): a
backend answer without status 101 → 502, no handlers; status 101 without a
socket handle → 502, no handlers; otherwise accept both sockets, install
the handlers and return 101. -/
def wsUpgradeOutcome (backendStatus : Nat) (backendSocket : Option Unit) : WsProxyOutcome :=
  if backendStatus ≠ 101 then { responseStatus := 502, handlersInstalled := false }
  else
    match backendSocket with
    | none => { responseStatus := 502, handlersInstalled := false }
    | some _ => { responseStatus := 101, handlersInstalled := true }

/-- The two ends of an established relay session. -/
inductive Side where
  | client
  | backend
  deriving DecidableEq, Repr

/-- The opposite end of a session. -/
def otherSide : Side → Side
  | .client => .backend
  | .backend => .client

/-- A WebSocket frame: text or binary. -/
inductive WsData where
  | text (s : String)
  | binary
  deriving DecidableEq, Repr

/-- An event delivered to one of the four installed listeners. -/
inductive WsEvent where
  | message (origin : Side) (data : WsData)
  | close (origin : Side) (code : Nat) (reason : String)
  | error (origin : Side)
  deriving DecidableEq, Repr

/-- An action a listener performs on the session's sockets. `raised` marks
a listener that propagated an exception (performing nothing else). -/
inductive Effect where
  | send (target : Side) (data : WsData)
  | closeSock (target : Side) (code : Nat) (reason : String)
  | raised
  deriving DecidableEq, Repr

/-- Which sockets currently have `readyState === WebSocket.OPEN`. -/
structure SessionState where
  clientOpen : Bool
  backendOpen : Bool
  deriving DecidableEq, Repr

/-- Fixed reason string of the error handlers (lines 216-224). -/
def wsErrorReason : Side → String
  | .client => "Client error"
  | .backend => "Backend error"

/-- The four listeners installed by `proxySelfHostedWebSocket`
(lines 182-224), as one step function from an event to the effects the
listener performs. A transform returning `.error` models a thrown
exception: the listener aborts before reaching its `send`, so nothing is
forwarded. -/
def stepSession (transform : Option (String → String → Except Unit String)) (host : String)
    (st : SessionState) (e : WsEvent) : List Effect :=
  match e with
  | .message .client data =>
    if st.backendOpen then [.send .backend data] else []
  | .message .backend data =>
    match data, transform with
    | .text s, some f =>
      match f s host with
      | .ok s2 => if st.clientOpen then [.send .client (.text s2)] else []
      | .error _ => [.raised]
    | _, _ => if st.clientOpen then [.send .client data] else []
  | .close origin code reason => [.closeSock (otherSide origin) code reason]
  | .error origin => [.closeSock (otherSide origin) 1011 (wsErrorReason origin)]

/-! ### Remote exec bridge (src/src/gateway/selfhosted.ts 248-276) -/

/-- The backend's structured command result. -/
structure ExecResult where
  stdout : String
  stderr : String
  exitCode : Int
  deriving DecidableEq, Repr

/-- The POST the bridge issues: URL, headers, JSON body fields, and the
abort-signal deadline in milliseconds. -/
structure ExecRequest where
  url : String
  method : String
  headers : List (String × String)
  bodyCommand : String
  bodyTimeout : Nat
  timeoutSignalMs : Nat
  deriving DecidableEq, Repr

/-- A backend answer to the exec POST: `jsonBody` is what `response.json()`
yields when the body parses as an `ExecResult`, `textBody` what
`response.text()` yields. -/
structure ExecResponse where
  status : Nat
  jsonBody : Option ExecResult
  textBody : String
  deriving DecidableEq, Repr

/-- The network's behaviour for one exec call. -/
inductive ExecNetOutcome where
  | response (r : ExecResponse)
  | failure (msg : String)
  deriving DecidableEq, Repr

/-- Request-building phase of `executeSelfHostedCommand` (lines 256-264):
POST to `{baseUrl}/api/internal/exec` with `Content-Type` plus the
optional auth header, body `{command, timeout: timeoutMs}`, and
`AbortSignal.timeout(timeoutMs + 5000)`. -/
def buildExecRequest (config : SelfHostedConfig) (command : String) (timeoutMs : Nat) :
    ExecRequest :=
  { url := config.baseUrl ++ "/api/internal/exec", method := "POST",
    headers := [("Content-Type", "application/json")] ++
      (match config.authToken with
       | some t => [("X-Internal-Auth", t)]
       | none => []),
    bodyCommand := command, bodyTimeout := timeoutMs,
    timeoutSignalMs := timeoutMs + 5000 }

/-- `executeSelfHostedCommand` (lines 248-276): on a fetch failure the
error is rethrown; on a non-ok status the call fails with the status and
the response text; on an ok status the parsed JSON body is returned
unchanged (failure to parse rethrows). -/
def executeSelfHostedCommand (config : SelfHostedConfig) (command : String)
    (net : ExecRequest → ExecNetOutcome) (timeoutMs : Nat := 20000) :
    Except String ExecResult :=
  match net (buildExecRequest config command timeoutMs) with
  | .failure msg => .error msg
  | .response r =>
    if responseOk r.status then
      match r.jsonBody with
      | some res => .ok res
      | none => .error "Invalid JSON body"
    else
      .error ("Command execution failed: " ++ toString r.status ++ " " ++ r.textBody)

/-! ### Helper lemmas about the headers model -/

theorem hGet_hSet (hs : List (String × String)) (k v k' : String) :
    hGet (hSet hs k v) k' =
      if lowerStr k == lowerStr k' then some v else hGet hs k' := by
  induction hs with
  | nil =>
    simp only [hSet, List.filter_nil, List.nil_append, hGet, List.find?]
    cases hkk : (lowerStr k == lowerStr k') <;> simp [hkk]
  | cons a t ih =>
    cases hak : (lowerStr a.1 == lowerStr k) with
    | true =>
      have hset : hSet (a :: t) k v = hSet t k v := by
        simp [hSet, List.filter_cons, hak, bne]
      rw [hset, ih]
      cases hkk : (lowerStr k == lowerStr k') with
      | true => simp
      | false =>
        have hak' : (lowerStr a.1 == lowerStr k') = false := by
          have h1 : lowerStr a.1 = lowerStr k := by simpa using hak
          have h2 : ¬ (lowerStr k = lowerStr k') := by simpa using hkk
          simpa [h1] using h2
        simp [hGet, List.find?_cons, hak']
    | false =>
      have hset : hSet (a :: t) k v = a :: hSet t k v := by
        simp [hSet, List.filter_cons, hak, bne]
      rw [hset]
      cases hak' : (lowerStr a.1 == lowerStr k') with
      | true =>
        have hkk : (lowerStr k == lowerStr k') = false := by
          have h1 : lowerStr a.1 = lowerStr k' := by simpa using hak'
          have h2 : ¬ (lowerStr a.1 = lowerStr k) := by simpa using hak
          have : ¬ (lowerStr k = lowerStr k') := by
            intro h; exact h2 (by rw [h1, h])
          simpa using this
        simp [hGet, List.find?_cons, hak', hkk]
      | false =>
        have : hGet (a :: hSet t k v) k' = hGet (hSet t k v) k' := by
          simp [hGet, List.find?_cons, hak']
        rw [this, ih]
        cases hkk : (lowerStr k == lowerStr k') with
        | true => simp
        | false => simp [hGet, List.find?_cons, hak']

theorem hGet_hDelete (hs : List (String × String)) (k k' : String) :
    hGet (hDelete hs k) k' =
      if lowerStr k == lowerStr k' then none else hGet hs k' := by
  induction hs with
  | nil => cases hkk : (lowerStr k == lowerStr k') <;> simp [hGet, hDelete, hkk]
  | cons a t ih =>
    cases hak : (lowerStr a.1 == lowerStr k) with
    | true =>
      have hdel : hDelete (a :: t) k = hDelete t k := by
        simp [hDelete, List.filter_cons, hak, bne]
      rw [hdel, ih]
      cases hkk : (lowerStr k == lowerStr k') with
      | true => simp
      | false =>
        have hak' : (lowerStr a.1 == lowerStr k') = false := by
          have h1 : lowerStr a.1 = lowerStr k := by simpa using hak
          have h2 : ¬ (lowerStr k = lowerStr k') := by simpa using hkk
          simpa [h1] using h2
        simp [hGet, List.find?_cons, hak']
    | false =>
      have hdel : hDelete (a :: t) k = a :: hDelete t k := by
        simp [hDelete, List.filter_cons, hak, bne]
      rw [hdel]
      cases hak' : (lowerStr a.1 == lowerStr k') with
      | true =>
        have hkk : (lowerStr k == lowerStr k') = false := by
          have h1 : lowerStr a.1 = lowerStr k' := by simpa using hak'
          have h2 : ¬ (lowerStr a.1 = lowerStr k) := by simpa using hak
          have : ¬ (lowerStr k = lowerStr k') := by
            intro h; exact h2 (by rw [h1, h])
          simpa using this
        simp [hGet, List.find?_cons, hak', hkk]
      | false =>
        have : hGet (a :: hDelete t k) k' = hGet (hDelete t k) k' := by
          simp [hGet, List.find?_cons, hak']
        rw [this, ih]
        cases hkk : (lowerStr k == lowerStr k') with
        | true => simp
        | false => simp [hGet, List.find?_cons, hak']

theorem hGet_congr (hs : List (String × String)) (k k' : String)
    (h : lowerStr k = lowerStr k') : hGet hs k = hGet hs k' := by
  simp only [hGet, h]

/-! ### Claim theorems -/

/-- Claim C2 (counterexample): the backend-to-client message listener does
not guard the transform call. With a transform that throws on the frame
"oops", the listener propagates the exception and performs no send at all,
which is not the claimed forwarding of the original untransformed frame. -/
theorem transform_throw_drops_frame_cex :
    stepSession (some (fun _ _ => .error ())) "host.example"
        { clientOpen := true, backendOpen := true }
        (.message .backend (.text "oops")) = [.raised]
    ∧ ([Effect.raised] : List Effect)
        ≠ [.send .client (.text "oops")] :=
  ⟨rfl, by decide⟩

/-- Claim C2 (amended): when the supplied transform throws on a
backend-to-client text frame, the listener raises and performs no other
effect — the frame is dropped, nothing is sent to the client, and no close
is issued on either socket (the session is not aborted by the relay). -/
theorem transform_throw_behavior (f : String → String → Except Unit String)
    (host s : String) (st : SessionState) (e : Unit)
    (h : f s host = .error e) :
    stepSession (some f) host st (.message .backend (.text s)) = [.raised] := by
  simp [stepSession, h]

/-- Claim C2 (amended) witness at a concrete throwing transform. -/
theorem transform_throw_behavior_witness :
    stepSession (some (fun _ _ => .error ())) "h"
        { clientOpen := true, backendOpen := true }
        (.message .backend (.text "x")) = [.raised] :=
  transform_throw_behavior (fun _ _ => .error ()) "h" "x"
    { clientOpen := true, backendOpen := true } () rfl

/-- Claim C4: a close event on either socket makes the relay close the
opposite socket with the same code and reason, symmetrically; an error
event on either socket makes the relay close the opposite socket — which
is never the erroring one — with the fixed abnormal-closure code 1011. -/
theorem close_error_propagation
    (transform : Option (String → String → Except Unit String)) (host : String)
    (st : SessionState) (origin : Side) (code : Nat) (reason : String) :
    stepSession transform host st (.close origin code reason)
        = [.closeSock (otherSide origin) code reason]
    ∧ stepSession transform host st (.error origin)
        = [.closeSock (otherSide origin) 1011 (wsErrorReason origin)]
    ∧ otherSide .client = .backend ∧ otherSide .backend = .client := by
  cases origin <;> exact ⟨rfl, rfl, rfl, rfl⟩

/-- Claim C5: when the backend's answer to the upgrade request is not
status 101, or is 101 without a socket handle, the relay responds 502 and
installs no handlers, so no partial relay is established. -/
theorem wsUpgrade_rejects_protocol_violation (backendStatus : Nat)
    (backendSocket : Option Unit)
    (h : backendStatus ≠ 101 ∨ backendSocket = none) :
    wsUpgradeOutcome backendStatus backendSocket
      = { responseStatus := 502, handlersInstalled := false } := by
  rcases h with h | h
  · simp [wsUpgradeOutcome, h]
  · subst h
    by_cases h101 : backendStatus = 101 <;> simp [wsUpgradeOutcome, h101]

/-- Claim C5 witness: a backend answering 200 to the upgrade request. -/
theorem wsUpgrade_rejects_protocol_violation_witness :
    wsUpgradeOutcome 200 (some ())
      = { responseStatus := 502, handlersInstalled := false } :=
  wsUpgrade_rejects_protocol_violation 200 (some ()) (Or.inl (by decide))

/-- Claim C9: the health probe returns true exactly when the GET to
`{baseUrl}/health` yields a 2xx status within the 5000 ms deadline; any
timeout, network error or non-2xx status yields false, and the `Bool`
return type reflects that the call never raises to its caller. -/
theorem healthProbe_true_iff (config : SelfHostedConfig)
    (net : String → HealthBehavior) :
    checkSelfHostedHealth config net = true ↔
      ∃ ms status, net (config.baseUrl ++ "/health") = .respondsAfter ms status
        ∧ ms ≤ 5000 ∧ responseOk status = true := by
  cases hb : net (config.baseUrl ++ "/health") with
  | respondsAfter ms status =>
    by_cases hms : ms ≤ 5000
    · constructor
      · intro h
        refine ⟨ms, status, rfl, hms, ?_⟩
        simpa [checkSelfHostedHealth, fetchWithDeadline, hb, hms] using h
      · rintro ⟨ms', s', heq, h1, h2⟩
        obtain ⟨rfl, rfl⟩ : ms = ms' ∧ status = s' := by
          simpa [HealthBehavior.respondsAfter.injEq] using heq
        simpa [checkSelfHostedHealth, fetchWithDeadline, hb, hms] using h2
    · constructor
      · intro h
        exfalso
        simp [checkSelfHostedHealth, fetchWithDeadline, hb, hms] at h
      · rintro ⟨ms', s', heq, h1, h2⟩
        obtain ⟨rfl, rfl⟩ : ms = ms' ∧ status = s' := by
          simpa [HealthBehavior.respondsAfter.injEq] using heq
        exact absurd h1 hms
  | neverResponds => simp [checkSelfHostedHealth, fetchWithDeadline, hb]
  | networkError => simp [checkSelfHostedHealth, fetchWithDeadline, hb]

/-- Claim C3: when the resolver yields a config and the health probe
reports unhealthy, the catch-all handler never invokes the HTTP or
WebSocket relay; it returns the interstitial loading page exactly for
non-WebSocket callers accepting HTML and the 503 `{error, hint}` JSON
otherwise; when the probe reports healthy it forwards, by upgrade
header. -/
theorem catchAll_health_gating (env : MoltbotEnv) (hs : List (String × String))
    (net : String → HealthBehavior) (config : SelfHostedConfig)
    (hc : buildSelfHostedConfig env = .ok (some config)) :
    (checkSelfHostedHealth config net = false →
      catchAll env hs net = .ok (if !isWebSocketRequestOf hs && acceptsHtmlOf hs
          then CatchAllOutcome.loadingHtml else CatchAllOutcome.unhealthy503)
      ∧ ∀ c, catchAll env hs net ≠ .ok (.wsRelay c)
          ∧ catchAll env hs net ≠ .ok (.httpRelay c))
    ∧ (checkSelfHostedHealth config net = true →
      catchAll env hs net
        = .ok (if isWebSocketRequestOf hs then .wsRelay config else .httpRelay config)) := by
  unfold catchAll
  rw [hc]
  cases hready : checkSelfHostedHealth config net <;>
    cases hws : isWebSocketRequestOf hs <;>
      cases hh : acceptsHtmlOf hs <;>
        simp [hready, hws, hh]

/-- Claim C6: the exec bridge's network abort deadline is
`timeoutMs + 5000`; a non-2xx backend status fails the call with the
status and response body included; a 2xx status returns the parsed
`{stdout, stderr, exitCode}` body unchanged. -/
theorem execBridge_contract (config : SelfHostedConfig) (command : String)
    (net : ExecRequest → ExecNetOutcome) (timeoutMs : Nat) (r : ExecResponse)
    (h : net (buildExecRequest config command timeoutMs) = .response r) :
    (buildExecRequest config command timeoutMs).timeoutSignalMs = timeoutMs + 5000
    ∧ (responseOk r.status = false →
        executeSelfHostedCommand config command net timeoutMs =
          .error ("Command execution failed: " ++ toString r.status ++ " " ++ r.textBody))
    ∧ (∀ res, responseOk r.status = true → r.jsonBody = some res →
        executeSelfHostedCommand config command net timeoutMs = .ok res) := by
  refine ⟨rfl, ?_, ?_⟩
  · intro hok
    simp [executeSelfHostedCommand, h, hok]
  · intro res hok hj
    simp [executeSelfHostedCommand, h, hok, hj]

/-- Claim C8: the resolver returns null exactly when the deployment mode
is not "selfhosted" or the backend URL is absent (or empty, which JS
truthiness treats as absent); otherwise the config's `baseUrl` is the
input URL with its trailing slash removed and, when no override is set,
`wsUrl` is derived by scheme substitution (https→wss, otherwise ws)
preserving host, port, path and query. -/
theorem configResolver_contract (env : MoltbotEnv) :
    (buildSelfHostedConfig env = .ok none ↔
      (env.DEPLOYMENT_MODE ≠ some "selfhosted" ∨ truthy env.SELFHOSTED_URL = false))
    ∧ (∀ cfg, buildSelfHostedConfig env = .ok (some cfg) →
        cfg.baseUrl = stripTrailingSlash (env.SELFHOSTED_URL.getD "")
        ∧ cfg.authToken = env.SELFHOSTED_AUTH_TOKEN
        ∧ (truthy env.SELFHOSTED_WS_URL = true → cfg.wsUrl = env.SELFHOSTED_WS_URL.getD "")
        ∧ (truthy env.SELFHOSTED_WS_URL = false →
            ∀ u, parseURL cfg.baseUrl = some u →
              cfg.wsUrl = stripTrailingSlash
                ((if u.protocol == "https:" then "wss:" else "ws:")
                  ++ "//" ++ u.host ++ u.pathname ++ u.search))) := by
  constructor
  · unfold buildSelfHostedConfig
    by_cases hmode : env.DEPLOYMENT_MODE ≠ some "selfhosted" ∨ truthy env.SELFHOSTED_URL = false
    · simp [hmode]
    · simp only [if_neg hmode]
      cases hws : truthy env.SELFHOSTED_WS_URL with
      | true => simp [hmode]
      | false =>
        cases hd : deriveWsUrl (stripTrailingSlash (env.SELFHOSTED_URL.getD "")) with
        | error e => simp [hmode, hd]
        | ok ws => simp [hmode, hd]
  · intro cfg hcfg
    unfold buildSelfHostedConfig at hcfg
    by_cases hmode : env.DEPLOYMENT_MODE ≠ some "selfhosted" ∨ truthy env.SELFHOSTED_URL = false
    · simp [hmode] at hcfg
    · simp only [if_neg hmode] at hcfg
      cases hws : truthy env.SELFHOSTED_WS_URL with
      | true =>
        rw [hws, if_pos rfl] at hcfg
        simp only [Except.ok.injEq, Option.some.injEq] at hcfg
        subst hcfg
        refine ⟨rfl, rfl, fun _ => rfl, fun hfalse => ?_⟩
        cases hfalse
      | false =>
        rw [hws, if_neg Bool.false_ne_true] at hcfg
        cases hd : deriveWsUrl (stripTrailingSlash (env.SELFHOSTED_URL.getD "")) with
        | error e => rw [hd] at hcfg; simp at hcfg
        | ok ws =>
          rw [hd] at hcfg
          simp only [Except.ok.injEq, Option.some.injEq] at hcfg
          subst hcfg
          refine ⟨rfl, rfl, fun htrue => ?_, fun _ u hu => ?_⟩
          · cases htrue
          unfold deriveWsUrl at hd
          rw [hu] at hd
          simp only [Except.ok.injEq] at hd
          rw [← hd]
          rfl

/-- Claim C7: the HTTP relay preserves the inbound method and body,
targets the backend base URL joined with the original path and query,
sends no `host` header of its own (the inbound one is always deleted, so
the caller's host is never forwarded), does not auto-follow redirects
(`redirect: 'manual'`), and returns the upstream's exact status code. -/
theorem httpRelay_contract (config : SelfHostedConfig) (request : RequestModel)
    (base : UrlParts) (hb : parseURL config.baseUrl = some base)
    (up : UpstreamRequest) (hu : buildProxyRequest config request = some up) :
    up.method = request.method
    ∧ up.body = request.body
    ∧ up.url = base.protocol ++ "//" ++ base.host ++ request.url.pathname ++ request.url.search
    ∧ hGet up.headers "host" = none
    ∧ up.redirect = "manual"
    ∧ ∀ resp : UpstreamResponse,
        (proxyClientResponse request.url.pathname resp).status = resp.status := by
  unfold buildProxyRequest at hu
  rw [hb] at hu
  simp only [Option.map_some', Option.some.injEq] at hu
  subst hu
  refine ⟨rfl, rfl, rfl, ?_, rfl, fun _ => rfl⟩
  cases hat : config.authToken with
  | none =>
    cases hck : hGet request.headers "Cookie" with
    | none =>
      simp only [hat, hck]
      rw [hGet_hDelete, if_pos (by decide)]
    | some c =>
      simp only [hat, hck]
      rw [hGet_hSet, if_neg (by decide), hGet_hDelete, if_pos (by decide)]
  | some t =>
    cases hck : hGet request.headers "Cookie" with
    | none =>
      simp only [hat, hck]
      rw [hGet_hDelete, if_pos (by decide)]
    | some c =>
      simp only [hat, hck]
      rw [hGet_hSet, if_neg (by decide), hGet_hDelete, if_pos (by decide)]

/-- Claim C7 witness: scenario C — base `https://x.example.com`, path
`/foo?x=1`. -/
theorem httpRelay_contract_witness :
    buildProxyRequest ⟨"https://x.example.com", "wss://x.example.com", none⟩
        ⟨⟨"https:", "caller.example", "/foo", "?x=1"⟩, "GET", [], none⟩
      = some ⟨"https://x.example.com/foo?x=1", "GET", [], none, "manual"⟩
    ∧ (⟨"https://x.example.com/foo?x=1", "GET", [], none, "manual"⟩ : UpstreamRequest).url
        = "https://x.example.com/foo?x=1"
    ∧ hGet ([] : List (String × String)) "host" = none
    ∧ (proxyClientResponse "/foo" ⟨200, "OK", [], none⟩).status = 200 := by
  have h := httpRelay_contract ⟨"https://x.example.com", "wss://x.example.com", none⟩
    ⟨⟨"https:", "caller.example", "/foo", "?x=1"⟩, "GET", [], none⟩
    ⟨"https:", "x.example.com", "/", ""⟩ rfl
    ⟨"https://x.example.com/foo?x=1", "GET", [], none, "manual"⟩ rfl
  exact ⟨rfl, h.2.2.1.trans (by rfl), h.2.2.2.1, h.2.2.2.2.2 ⟨200, "OK", [], none⟩⟩

/-- Claim C1 (amended): for every environment in which required settings
are missing — regardless of whether the resolver still yields a config —
the env-validation middleware (non-`/debug` path, DEV_MODE off) responds
503 with exactly the set of missing names, as a JSON `missing` list or
joined into the config-error page for HTML callers; the resolver signals
unconfigured exactly when the deployment mode is not "selfhosted" or the
backend URL is absent, and in that case the public status route responds
200 with a `not_configured` body (not 503) and the catch-all responds 503
with an `{error, hint}` body that does not list the missing names. -/
theorem missing_env_handling (env : MoltbotEnv) (pathname : String) (acceptsHtml : Bool)
    (hs : List (String × String)) (net : String → HealthBehavior)
    (hdebug : strStartsWith pathname "/debug" = false)
    (hdev : env.DEV_MODE ≠ some "true")
    (hmiss : validateRequiredEnv env ≠ []) :
    validateEnvMiddleware env pathname acceptsHtml =
      (if acceptsHtml then
        MiddlewareResult.html503 (String.intercalate ", " (validateRequiredEnv env))
       else MiddlewareResult.json503 (validateRequiredEnv env))
    ∧ (∀ v, v ∈ validateRequiredEnv env ↔
        ((v = "SELFHOSTED_URL" ∧ truthy env.SELFHOSTED_URL = false)
        ∨ (v = "MOLTBOT_GATEWAY_TOKEN" ∧ truthy env.MOLTBOT_GATEWAY_TOKEN = false)
        ∨ (v = "CF_ACCESS_TEAM_DOMAIN" ∧ truthy env.CF_ACCESS_TEAM_DOMAIN = false)
        ∨ (v = "CF_ACCESS_AUD" ∧ truthy env.CF_ACCESS_AUD = false)))
    ∧ (buildSelfHostedConfig env = .ok none ↔
        (env.DEPLOYMENT_MODE ≠ some "selfhosted" ∨ truthy env.SELFHOSTED_URL = false))
    ∧ (buildSelfHostedConfig env = .ok none →
        apiStatus env net = .ok { status := 200, body := .notConfigured }
        ∧ catchAll env hs net = .ok .configMissing503) := by
  have hdev2 : (env.DEV_MODE == some "true") = false := beq_eq_false_iff_ne.mpr hdev
  have hlen : 0 < (validateRequiredEnv env).length := List.length_pos.mpr hmiss
  refine ⟨?_, ?_, ?_, ?_⟩
  · unfold validateEnvMiddleware
    simp only [hdebug, hdev2, Bool.false_eq_true, if_false, hlen, if_pos]
  · intro v
    cases h1 : truthy env.SELFHOSTED_URL <;>
      cases h2 : truthy env.MOLTBOT_GATEWAY_TOKEN <;>
        cases h3 : truthy env.CF_ACCESS_TEAM_DOMAIN <;>
          cases h4 : truthy env.CF_ACCESS_AUD <;>
            simp [validateRequiredEnv, h1, h2, h3, h4]
  · unfold buildSelfHostedConfig
    by_cases hmode : env.DEPLOYMENT_MODE ≠ some "selfhosted" ∨ truthy env.SELFHOSTED_URL = false
    · simp [hmode]
    · simp only [if_neg hmode]
      cases hws : truthy env.SELFHOSTED_WS_URL with
      | true => simp [hmode]
      | false =>
        cases hd : deriveWsUrl (stripTrailingSlash (env.SELFHOSTED_URL.getD "")) with
        | error e => simp [hmode, hd]
        | ok ws => simp [hmode, hd]
  · intro hcfg
    constructor
    · unfold apiStatus
      rw [hcfg]
    · unfold catchAll
      rw [hcfg]

/-- Claim C1 (amended) witness at two environments: one with the backend
URL configured but the other three required settings absent (the resolver
yields a config, the middleware still responds 503 with exactly those
names), and one with everything absent (the resolver yields null, the
status route answers 200 `not_configured` and the catch-all 503). -/
theorem missing_env_handling_witness :
    validateEnvMiddleware ⟨some "selfhosted", some "https://x.example.com",
        some "wss://x.example.com", none, none, none, none, none⟩ "/" false =
      .json503 ["MOLTBOT_GATEWAY_TOKEN", "CF_ACCESS_TEAM_DOMAIN", "CF_ACCESS_AUD"]
    ∧ buildSelfHostedConfig ⟨some "selfhosted", some "https://x.example.com",
        some "wss://x.example.com", none, none, none, none, none⟩ ≠ .ok none
    ∧ validateEnvMiddleware ⟨none, none, none, none, none, none, none, none⟩ "/" false =
      .json503 ["SELFHOSTED_URL", "MOLTBOT_GATEWAY_TOKEN", "CF_ACCESS_TEAM_DOMAIN", "CF_ACCESS_AUD"]
    ∧ apiStatus ⟨none, none, none, none, none, none, none, none⟩ (fun _ => .networkError)
      = .ok { status := 200, body := .notConfigured }
    ∧ catchAll ⟨none, none, none, none, none, none, none, none⟩ [] (fun _ => .networkError)
      = .ok .configMissing503 := by
  have hA := missing_env_handling ⟨some "selfhosted", some "https://x.example.com",
    some "wss://x.example.com", none, none, none, none, none⟩ "/" false []
    (fun _ => .networkError) (by decide) (by simp) (by decide)
  have hB := missing_env_handling ⟨none, none, none, none, none, none, none, none⟩ "/" false []
    (fun _ => .networkError) (by decide) (by simp) (by decide)
  refine ⟨hA.1.trans (by rfl), ?_, hB.1.trans (by rfl), (hB.2.2.2 rfl).1, (hB.2.2.2 rfl).2⟩
  intro hnull
  have := hA.2.2.1.mp hnull
  rcases this with h | h
  · exact h rfl
  · cases h

/-- Claim C1 (counterexample): with the backend URL absent (a required
setting missing), the public status route `GET /api/status` responds
200 with `{ok:false, status:'not_configured'}` — not 503, and without the
list of missing names. -/
theorem status_route_not_503_cex :
    apiStatus ⟨some "selfhosted", none, none, none, none, none, none, none⟩
        (fun _ => .networkError)
      = .ok { status := 200, body := .notConfigured }
    ∧ (200 : Nat) ≠ 503
    ∧ validateRequiredEnv ⟨some "selfhosted", none, none, none, none, none, none, none⟩ ≠ [] :=
  ⟨rfl, by decide, by decide⟩

/-- Claim C10 (amended): with no `authToken`, no backend-bound operation
adds or overwrites `X-Internal-Auth`: the health probe's auth headers are
empty, the WebSocket upgrade forwards the inbound headers unchanged, the
exec bridge sends no auth header, and the HTTP relay forwards every
inbound header unchanged — including a client-supplied `X-Internal-Auth`
— except the `host` header, which it always removes. -/
theorem noAuthToken_no_header_injection (config : SelfHostedConfig) (request : RequestModel)
    (command : String) (timeoutMs : Nat)
    (hnone : config.authToken = none) :
    buildAuthHeaders config = []
    ∧ wsUpgradeHeaders config request.headers = request.headers
    ∧ hGet (buildExecRequest config command timeoutMs).headers "X-Internal-Auth" = none
    ∧ (∀ up, buildProxyRequest config request = some up →
        hGet up.headers "X-Internal-Auth" = hGet request.headers "X-Internal-Auth"
        ∧ hGet up.headers "host" = none
        ∧ ∀ k, lowerStr k ≠ "host" → hGet up.headers k = hGet request.headers k) := by
  refine ⟨by simp [buildAuthHeaders, hnone], by simp [wsUpgradeHeaders, hnone], ?_, ?_⟩
  · rw [buildExecRequest, hnone]
    rfl
  · intro up hup
    unfold buildProxyRequest at hup
    cases hpb : parseURL config.baseUrl with
    | none => rw [hpb] at hup; simp at hup
    | some base =>
      rw [hpb] at hup
      simp only [Option.map_some', Option.some.injEq] at hup
      subst hup
      have hhost : hGet
          (match hGet request.headers "Cookie" with
            | some cookies => hSet (hDelete (match config.authToken with
                | some t => hSet request.headers "X-Internal-Auth" t
                | none => request.headers) "host") "Cookie" cookies
            | none => hDelete (match config.authToken with
                | some t => hSet request.headers "X-Internal-Auth" t
                | none => request.headers) "host") "host" = none := by
        rw [hnone]
        cases hck : hGet request.headers "Cookie" with
        | none =>
          simp only [hck]
          rw [hGet_hDelete, if_pos (by decide)]
        | some c =>
          simp only [hck]
          rw [hGet_hSet, if_neg (by decide), hGet_hDelete, if_pos (by decide)]
      have hgen : ∀ k, lowerStr k ≠ "host" →
          hGet (match hGet request.headers "Cookie" with
            | some cookies => hSet (hDelete (match config.authToken with
                | some t => hSet request.headers "X-Internal-Auth" t
                | none => request.headers) "host") "Cookie" cookies
            | none => hDelete (match config.authToken with
                | some t => hSet request.headers "X-Internal-Auth" t
                | none => request.headers) "host") k
          = hGet request.headers k := by
        intro k hk
        have hkhost : (lowerStr "host" == lowerStr k) = false := by
          apply beq_eq_false_iff_ne.mpr
          intro h
          exact hk (by rw [← h]; rfl)
        rw [hnone]
        cases hck : hGet request.headers "Cookie" with
        | none =>
          simp only [hck, hGet_hDelete, hkhost, Bool.false_eq_true, if_false]
        | some c =>
          simp only [hck]
          by_cases hc : lowerStr "Cookie" = lowerStr k
          · rw [hGet_hSet, if_pos (by rw [hc]; exact beq_self_eq_true _),
              hGet_congr request.headers k "Cookie" hc.symm]
            exact hck.symm
          · rw [hGet_hSet, if_neg (by simpa using hc)]
            simp only [hGet_hDelete, hkhost, Bool.false_eq_true, if_false]
      exact ⟨hgen "X-Internal-Auth" (by decide), hhost, hgen⟩

/-- Claim C10 (counterexample): the HTTP relay's upstream headers are not
the inbound headers unchanged — the inbound `Host` header is deleted. -/
theorem host_header_removed_cex :
    (buildProxyRequest ⟨"https://x.example.com", "wss://x.example.com", none⟩
        ⟨⟨"https:", "caller.example", "/p", ""⟩, "GET",
          [("Host", "caller.example"), ("X-Internal-Auth", "client-token")], none⟩).map
        (fun up => hGet up.headers "Host")
      = some none
    ∧ hGet [("Host", "caller.example"), ("X-Internal-Auth", "client-token")] "Host"
      = some "caller.example" :=
  ⟨rfl, rfl⟩

/-- Claim C10 (amended) witness at a token-less config with a
client-supplied auth header. -/
theorem noAuthToken_witness :
    buildAuthHeaders ⟨"https://x.example.com", "wss://x.example.com", none⟩ = []
    ∧ wsUpgradeHeaders ⟨"https://x.example.com", "wss://x.example.com", none⟩
        [("X-Internal-Auth", "tok")] = [("X-Internal-Auth", "tok")]
    ∧ hGet (buildExecRequest ⟨"https://x.example.com", "wss://x.example.com", none⟩ "ls" 1000).headers
        "X-Internal-Auth" = none := by
  have h := noAuthToken_no_header_injection
    ⟨"https://x.example.com", "wss://x.example.com", none⟩
    ⟨⟨"https:", "caller.example", "/p", ""⟩, "GET", [("X-Internal-Auth", "tok")], none⟩
    "ls" 1000 rfl
  exact ⟨h.1, h.2.1, h.2.2.1⟩


/-- Claim C3 witness: an unconfigured-health backend with a JSON caller
gets the 503 `{error, hint}` body and no relay. -/
theorem catchAll_health_gating_witness :
    catchAll ⟨some "selfhosted", some "https://x.example.com", some "wss://x.example.com",
        none, some "t", some "d", some "a", none⟩ [] (fun _ => .networkError)
      = .ok .unhealthy503
    ∧ catchAll ⟨some "selfhosted", some "https://x.example.com", some "wss://x.example.com",
        none, some "t", some "d", some "a", none⟩ [] (fun _ => .networkError)
      ≠ .ok (.httpRelay ⟨"https://x.example.com", "wss://x.example.com", none⟩) := by
  have h := (catchAll_health_gating
    ⟨some "selfhosted", some "https://x.example.com", some "wss://x.example.com",
      none, some "t", some "d", some "a", none⟩ [] (fun _ => .networkError)
    ⟨"https://x.example.com", "wss://x.example.com", none⟩ rfl).1 rfl
  exact ⟨h.1.trans (by rfl), (h.2 ⟨"https://x.example.com", "wss://x.example.com", none⟩).2⟩

/-- Claim C6 witness: scenario D — command "echo hi", backend answers 200
with body `{stdout:"hi\n", stderr:"", exitCode:0}`; the deadline is
20000 + 5000 ms. -/
theorem execBridge_contract_witness :
    executeSelfHostedCommand ⟨"https://x.example.com", "wss://x.example.com", none⟩ "echo hi"
        (fun _ => .response ⟨200, some ⟨"hi\n", "", 0⟩, ""⟩) 20000
      = .ok ⟨"hi\n", "", 0⟩
    ∧ (buildExecRequest ⟨"https://x.example.com", "wss://x.example.com", none⟩
        "echo hi" 20000).timeoutSignalMs = 25000 := by
  have h := execBridge_contract ⟨"https://x.example.com", "wss://x.example.com", none⟩
    "echo hi" (fun _ => .response ⟨200, some ⟨"hi\n", "", 0⟩, ""⟩) 20000
    ⟨200, some ⟨"hi\n", "", 0⟩, ""⟩ rfl
  exact ⟨h.2.2 ⟨"hi\n", "", 0⟩ (by decide) rfl, h.1.trans (by norm_num)⟩

/-- Claim C8 witness: scenario A — `{mode: "selfhosted",
url: "https://x.example.com/"}` yields `baseUrl = "https://x.example.com"`
and `wsUrl = "wss://x.example.com"`. -/
theorem configResolver_contract_witness :
    buildSelfHostedConfig ⟨some "selfhosted", some "https://x.example.com/", none, none,
        some "t", some "d", some "a", none⟩
      = .ok (some ⟨"https://x.example.com", "wss://x.example.com", none⟩)
    ∧ (⟨"https://x.example.com", "wss://x.example.com", none⟩ : SelfHostedConfig).baseUrl
      = "https://x.example.com"
    ∧ (⟨"https://x.example.com", "wss://x.example.com", none⟩ : SelfHostedConfig).wsUrl
      = "wss://x.example.com" := by
  have h := (configResolver_contract ⟨some "selfhosted", some "https://x.example.com/",
    none, none, some "t", some "d", some "a", none⟩).2
    ⟨"https://x.example.com", "wss://x.example.com", none⟩ rfl
  exact ⟨rfl, h.1.trans (by rfl),
    (h.2.2.2 rfl ⟨"https:", "x.example.com", "/", ""⟩ rfl).trans (by rfl)⟩

/-- Claim C9 witness: scenario B — HTTP 200 within the deadline yields
true; HTTP 500 yields false; a backend that never responds yields false. -/
theorem healthProbe_true_iff_witness :
    checkSelfHostedHealth ⟨"https://x.example.com", "wss://x.example.com", none⟩
        (fun _ => .respondsAfter 10 200) = true
    ∧ checkSelfHostedHealth ⟨"https://x.example.com", "wss://x.example.com", none⟩
        (fun _ => .respondsAfter 10 500) = false
    ∧ checkSelfHostedHealth ⟨"https://x.example.com", "wss://x.example.com", none⟩
        (fun _ => .neverResponds) = false := by
  refine ⟨?_, rfl, rfl⟩
  exact (healthProbe_true_iff ⟨"https://x.example.com", "wss://x.example.com", none⟩
    (fun _ => .respondsAfter 10 200)).mpr ⟨10, 200, rfl, by decide, by decide⟩

/-- Claim C4 witness: a client close with code 1000 closes the backend
with the same code and reason. -/
theorem close_error_propagation_witness :
    stepSession none "" { clientOpen := true, backendOpen := true } (.close .client 1000 "done")
      = [.closeSock .backend 1000 "done"] :=
  (close_error_propagation none "" { clientOpen := true, backendOpen := true }
    .client 1000 "done").1

end Moltworker
